import Mathlib

/-!
Verification of `src/set_lost_mode.py`: a batch tool that enables or
disables "lost mode" for mobile devices listed in a CSV, via a
fleet-management HTTP API.

The shallow embedding translates the script's pure parts into Lean
functions and its effectful parts into explicit data:
* XML documents built with `xml.etree.ElementTree` become the `XmlNode`
  inductive; `ElementTree.tostring` becomes `serializeXml`.
* an HTTP POST becomes a value of `HttpResult` supplied by an oracle
  `net : Nat → HttpResult` (one result per attempted request, in order);
  `requests.Response.raise_for_status` becomes `raise_for_status_raises`.
* a CSV record seen through `csv.DictReader` becomes `Row`, whose fields
  are `none` exactly when the column is absent from the header (so that a
  lookup of the field in Python raises `KeyError`).
* an uncaught Python exception becomes the `Except.error` branch or the
  `aborted` field of `BatchResult`; lines written by `print` become
  `printed` lists.
-/

namespace SetLostMode

/-- An XML element as built by `xml.etree.ElementTree`: tag, optional text,
children. Attributes and tails never occur in this script, so they are not
modelled. -/
inductive XmlNode where
  | elem (tag : String) (text : Option String) (children : List XmlNode)

/-- Models `xml.etree.ElementTree`'s `_escape_cdata`: text content has
`&`, `<`, `>` escaped on serialization. -/
def escape_cdata (s : String) : String :=
  ((s.replace "&" "&amp;").replace "<" "&lt;").replace ">" "&gt;"

/-- Depth-bounded serializer modelling `ElementTree.tostring` (no XML
declaration, self-closing `<tag />` when the element has falsy text and no
children, text escaped). The fuel makes the recursion structural; every
payload this script builds has depth 3, well below the bound. -/
def serializeFuel : Nat → XmlNode → String
  | 0, _ => ""
  | n + 1, .elem t x c =>
    if (x.getD "") = "" && c.isEmpty then
      "<" ++ t ++ " />"
    else
      "<" ++ t ++ ">" ++ escape_cdata (x.getD "")
        ++ String.join (c.map (serializeFuel n)) ++ "</" ++ t ++ ">"

/-- Serialization of a payload document, cf. `ElementTree.tostring(...)`
at lines 75 and 101 of the script. -/
def serializeXml (p : XmlNode) : String := serializeFuel 8 p

/-- Tag of an element. -/
def nodeTag : XmlNode → String
  | .elem t _ _ => t

/-- Text of an element. -/
def nodeText : XmlNode → Option String
  | .elem _ x _ => x

/-- Children of an element. -/
def nodeChildren : XmlNode → List XmlNode
  | .elem _ _ c => c

/-- Depth-bounded depth-first search for the first element with the given
tag. -/
def findNodeFuel : Nat → XmlNode → String → Option XmlNode
  | 0, _, _ => none
  | n + 1, .elem t x c, tag =>
    if t == tag then some (.elem t x c)
    else c.findSome? (fun child => findNodeFuel n child tag)

/-- First element with the given tag in a payload (payloads have depth 3,
well below the fuel bound). -/
def findNode (p : XmlNode) (tag : String) : Option XmlNode := findNodeFuel 8 p tag

/-- Does the payload contain an element with this tag anywhere? -/
def hasTag (p : XmlNode) (tag : String) : Bool := (findNode p tag).isSome

/-- Text of the first element with the given tag: `none` when no such
element exists, `some t` when it exists and carries text `t`. -/
def findText (p : XmlNode) (tag : String) : Option (Option String) :=
  (findNode p tag).map nodeText

/-- Entries of the device target list: the children of the
`mobile_devices` element of a payload. -/
def deviceEntries (p : XmlNode) : List XmlNode :=
  ((findNode p "mobile_devices").map nodeChildren).getD []

/-- XML document built by `enable_lost_mode` (script lines 62-73): the
`ElementTree.Element`/`SubElement` calls, with `lost_mode_with_sound`
appended only under `if sound is True`. -/
def enable_lost_mode_payload (device_serial message phone_number : String)
    (sound : Bool) : XmlNode :=
  .elem "mobile_device_command" none
    [ .elem "general" none
        ([ .elem "command" (some "EnableLostMode") []
         , .elem "lost_mode_message" (some message) []
         , .elem "lost_mode_phone" (some phone_number) []
         , .elem "always_enforce_lost_mode" (some "true") [] ]
         ++ (if sound then [.elem "lost_mode_with_sound" (some "true") []] else []))
    , .elem "mobile_devices" none
        [ .elem "mobile_device" none
            [ .elem "serial_number" (some device_serial) [] ] ] ]

/-- XML document built by `disable_lost_mode` (script lines 93-99). -/
def disable_lost_mode_payload (device_serial : String) : XmlNode :=
  .elem "mobile_device_command" none
    [ .elem "general" none
        [ .elem "command" (some "DisableLostMode") [] ]
    , .elem "mobile_devices" none
        [ .elem "mobile_device" none
            [ .elem "serial_number" (some device_serial) [] ] ] ]

/-- Result of one `requests.post` call: either a response with a status
code, or a raised exception (network failure and the like). -/
inductive HttpResult where
  | status (code : Nat)
  | netError
deriving Repr, DecidableEq

/-- Models `requests.Response.raise_for_status`: it raises `HTTPError`
exactly for status codes 400-599 (client and server errors) and is silent
for every other code, including 1xx and 3xx. -/
def raise_for_status_raises (code : Nat) : Bool :=
  decide (400 ≤ code) && decide (code < 600)

/-- Models the line `print("Error: " + str(e))` for a caught `HTTPError`:
the rendering keeps the status code; the reason phrase and URL that the
live `requests` exception object would embed are abstracted. -/
def httpErrorLine (code : Nat) : String :=
  "Error: HTTPError " ++ toString code

/-- What one of the two send functions produces when it returns normally:
the status code it hands back and the diagnostic lines it printed. -/
structure CallResult where
  status_code : Nat
  printed : List String
deriving Repr, DecidableEq

/-- `enable_lost_mode` (script lines 53-88): builds the enable XML, POSTs
it, catches `HTTPError` from `raise_for_status` (printing the error and
the payload), and returns the status code. A raised network error from
`requests.post` is not caught here and becomes `Except.error`. -/
def enable_lost_mode (api_user api_pass device_serial message phone_number : String)
    (sound : Bool) (resp : HttpResult) : Except String CallResult :=
  let xml_data := serializeXml (enable_lost_mode_payload device_serial message phone_number sound)
  match resp with
  | .netError => .error "requests.exceptions.ConnectionError"
  | .status code =>
    .ok { status_code := code
        , printed :=
            if raise_for_status_raises code then [httpErrorLine code, xml_data] else [] }

/-- `disable_lost_mode` (script lines 91-114): same shape as
`enable_lost_mode` with the disable XML. -/
def disable_lost_mode (api_user api_pass device_serial : String)
    (resp : HttpResult) : Except String CallResult :=
  let xml_data := serializeXml (disable_lost_mode_payload device_serial)
  match resp with
  | .netError => .error "requests.exceptions.ConnectionError"
  | .status code =>
    .ok { status_code := code
        , printed :=
            if raise_for_status_raises code then [httpErrorLine code, xml_data] else [] }

/-- Operation selected by the validated `--mode` CLI argument, which `main`
guarantees to be exactly `"enable"` or `"disable"` before the loop runs. -/
inductive Mode where
  | enable
  | disable
deriving Repr, DecidableEq

/-- One CSV record as seen through `csv.DictReader`: each field is `none`
exactly when the column is absent from the header, in which case the
Python subscript `row[...]` raises `KeyError`. Ragged data rows are not
modelled (a short row yields a `None` cell in Python, which the script's
uses cannot distinguish from an empty string). -/
structure Row where
  serial_number : Option String
  message : Option String
  phone_number : Option String
  play_sound : Option String
deriving Repr, DecidableEq

/-- Script lines 174-181: the per-row cell lookups. `serial_number`,
`message` and `phone_number` are read unguarded, so an absent column is an
uncaught `KeyError` (`Except.error`); the `play_sound` lookup is wrapped
in `try/except KeyError` and falls back to `None`. -/
def extractFields (row : Row) :
    Except String (String × String × String × Option String) :=
  match row.serial_number with
  | none => .error "KeyError: serial_number"
  | some sn =>
    match row.message with
    | none => .error "KeyError: message"
    | some msg =>
      match row.phone_number with
      | none => .error "KeyError: phone_number"
      | some ph => .ok (sn, msg, ph, row.play_sound)

/-- Script line 186: `sound is False or sound == "false" or sound == "FALSE"`
selects the `sound=False` call, every other value of the cell (including an
absent column, which yielded `None`) takes the default `sound=True`. The
`sound is False` disjunct can never hold for a CSV cell, which is a string
or `None`. The result is the `sound` argument passed to
`enable_lost_mode`. -/
def soundParam (cell : Option String) : Bool :=
  !(cell == some "false" || cell == some "FALSE")

/-- What the loop body leaves behind for one row: the serial number it
worked on, the returned status code when the send function returned
(`none` when the broad `except Exception` fired), and the diagnostic lines
printed for the row. -/
structure RowOutcome where
  serial_number : String
  status_code : Option Nat
  printed : List String
deriving Repr, DecidableEq

/-- Script lines 184-208: dispatch one row's already-extracted fields. The
`try/except Exception` around each send call turns an uncaught exception
from the call into the printed line
`f"Error {serial_number} failed to send lost mode command"`. -/
def processRowFields (mode : Mode) (user pass : String)
    (fields : String × String × String × Option String)
    (resp : HttpResult) : RowOutcome :=
  match mode with
  | .enable =>
    match enable_lost_mode user pass fields.1 fields.2.1 fields.2.2.1
        (soundParam fields.2.2.2) resp with
    | .ok r => ⟨fields.1, some r.status_code, r.printed⟩
    | .error _ =>
      ⟨fields.1, none, ["Error " ++ fields.1 ++ " failed to send lost mode command"]⟩
  | .disable =>
    match disable_lost_mode user pass fields.1 resp with
    | .ok r => ⟨fields.1, some r.status_code, r.printed⟩
    | .error _ =>
      ⟨fields.1, none, ["Error " ++ fields.1 ++ " failed to send lost mode command"]⟩

/-- Row dispatch including the cell extraction; the junk value in the
`.error` branch is never exposed, since the dispatch loop aborts there
instead of producing an outcome. -/
def processRowD (mode : Mode) (user pass : String) (row : Row)
    (resp : HttpResult) : RowOutcome :=
  match extractFields row with
  | .error _ => ⟨"", none, []⟩
  | .ok q => processRowFields mode user pass q resp

/-- Serial number cell of a row, defaulting to the empty string. When
`extractFields` succeeds this is the extracted serial. -/
def serialOf (row : Row) : String := row.serial_number.getD ""

/-- Observable result of the whole loop of script lines 170-208:
the per-row outcomes produced before the run ended, and `some e` when an
uncaught exception `e` aborted the loop (the outcomes then cover exactly
the rows before the aborting one). -/
structure BatchResult where
  outcomes : List RowOutcome
  aborted : Option String
deriving Repr, DecidableEq

/-- Script lines 170-208: the `for row in reader` loop. Rows are handled
strictly in order; each row first has its cells extracted (an absent
required column raises an uncaught `KeyError`, aborting the run), then is
dispatched. The network oracle `net` is consulted once per dispatched row,
at the row's position `idx`. -/
def dispatchLoop (mode : Mode) (user pass : String) (net : Nat → HttpResult) :
    List Row → Nat → BatchResult
  | [], _ => ⟨[], none⟩
  | row :: rest, idx =>
    match extractFields row with
    | .error e => ⟨[], some e⟩
    | .ok q =>
      let out := processRowFields mode user pass q (net idx)
      let r := dispatchLoop mode user pass net rest (idx + 1)
      ⟨out :: r.outcomes, r.aborted⟩

/-- Models `csv.DictReader`'s cell lookup: `none` when the column is not
in the header, else the cell at the column's position, with short rows
padded by `""` (observationally equivalent to Python's `None` restval for
every use this script makes of a cell). Duplicate header columns are not
modelled; the headers in scope have distinct column names. -/
def dictGet : List String → List String → String → Option String
  | [], _, _ => none
  | h :: ht, cells, col =>
    if h == col then some (cells.headD "") else dictGet ht (cells.drop 1) col

/-- One data row of the CSV turned into a `Row` under the given header. -/
def rowOfCells (header cells : List String) : Row :=
  { serial_number := dictGet header cells "serial_number"
  , message := dictGet header cells "message"
  , phone_number := dictGet header cells "phone_number"
  , play_sound := dictGet header cells "play_sound" }

/-- Script lines 161-165: `for _ in reader: device_list = list(reader)`.
The loop's first iteration consumes the first CSV row and binds
`device_list` to all remaining rows, after which the reader is exhausted;
an empty file leaves the initial `[]`. Net effect: the tail of the row
list. -/
def device_list (csvRows : List (List String)) : List (List String) :=
  match csvRows with
  | [] => []
  | _ :: rest => rest

/-- How a run past the CLI checks ends: the `"No iPads listed in CSV"`
`sys.exit(1)` path of lines 166-168, or the dispatch loop's result. -/
inductive RunResult where
  | noDevices
  | ran (result : BatchResult)
deriving Repr, DecidableEq

/-- Script lines 160-208 of `main`, after mode/path validation and the
credential prompt: the empty-list pre-check over `csv.reader` rows,
then the `csv.DictReader` dispatch loop over the data rows. `csvRows` is
the raw row list of the file (header first when present). -/
def main_run (mode : Mode) (user pass : String) (net : Nat → HttpResult)
    (csvRows : List (List String)) : RunResult :=
  match csvRows with
  | [] => .noDevices
  | header :: dataRows =>
    if (device_list (header :: dataRows)).length = 0 then .noDevices
    else .ran (dispatchLoop mode user pass net (dataRows.map (rowOfCells header)) 0)

/-- Data model of the spec's DeviceCommandRequest: the validated
per-device parameters handed to the Command Builder. -/
structure DeviceCommandRequest where
  operation : Mode
  serial_number : String
  message : String
  phone_number : String
  play_sound : Bool
deriving Repr, DecidableEq

/-- The Command Builder: payload construction for one request, selecting
the builder of `enable_lost_mode` or `disable_lost_mode` by operation. -/
def buildPayload (r : DeviceCommandRequest) : XmlNode :=
  match r.operation with
  | .enable => enable_lost_mode_payload r.serial_number r.message r.phone_number r.play_sound
  | .disable => disable_lost_mode_payload r.serial_number

/-! Helper lemmas about the embedding. -/

/-- When the unguarded cell extraction succeeds, the first extracted field
is the row's serial number. -/
theorem extractFields_ok_fst (row : Row) (q : String × String × String × Option String)
    (hq : extractFields row = Except.ok q) : q.1 = serialOf row := by
  unfold extractFields at hq
  cases hsn : row.serial_number with
  | none => rw [hsn] at hq; cases hq
  | some sn =>
    rw [hsn] at hq
    cases hmsg : row.message with
    | none => rw [hmsg] at hq; cases hq
    | some msg =>
      rw [hmsg] at hq
      cases hph : row.phone_number with
      | none => rw [hph] at hq; cases hq
      | some ph =>
        rw [hph] at hq
        simp only [Except.ok.injEq] at hq
        subst hq
        simp [serialOf, hsn]

/-- A network failure during the send is caught by the row's broad
`except Exception`, which prints the diagnostic naming the serial number;
the loop then moves on. -/
theorem processRowFields_netError (mode : Mode) (user pass : String)
    (fields : String × String × String × Option String) :
    processRowFields mode user pass fields HttpResult.netError =
      ⟨fields.1, none, ["Error " ++ fields.1 ++ " failed to send lost mode command"]⟩ := by
  cases mode <;> rfl

/-- In enable mode, any HTTP response (whatever its status) produces an
outcome carrying the row's serial number and that status code. -/
theorem processRowFields_enable_status (user pass : String)
    (q : String × String × String × Option String) (c : Nat) :
    (processRowFields Mode.enable user pass q (HttpResult.status c)).serial_number = q.1 ∧
    (processRowFields Mode.enable user pass q (HttpResult.status c)).status_code = some c :=
  ⟨rfl, rfl⟩

/-- When every row's required columns are present, the loop runs to the
end: no abort, and one outcome per input row. -/
theorem dispatchLoop_complete (mode : Mode) (user pass : String) (net : Nat → HttpResult) :
    ∀ (rows : List Row) (idx : Nat),
      (∀ x ∈ rows, ∃ q, extractFields x = Except.ok q) →
      (dispatchLoop mode user pass net rows idx).aborted = none ∧
      (dispatchLoop mode user pass net rows idx).outcomes.length = rows.length := by
  intro rows
  induction rows with
  | nil => intro idx _; exact ⟨rfl, rfl⟩
  | cons a l ih =>
    intro idx hext
    obtain ⟨q, hq⟩ := hext a (List.mem_cons_self a l)
    have hl := ih (idx + 1) (fun x hx => hext x (List.mem_cons_of_mem a hx))
    simp [dispatchLoop, hq, hl.1, hl.2]

/-- When every row's required columns are present, the outcome at
position `i` is exactly the dispatch of the row at position `i` with the
`i`-th network response: the loop is a position-preserving map. -/
theorem dispatchLoop_get (mode : Mode) (user pass : String) (net : Nat → HttpResult) :
    ∀ (rows : List Row) (idx i : Nat) (r : Row),
      (∀ x ∈ rows, ∃ q, extractFields x = Except.ok q) →
      rows[i]? = some r →
      (dispatchLoop mode user pass net rows idx).outcomes[i]? =
        some (processRowD mode user pass r (net (idx + i))) := by
  intro rows
  induction rows with
  | nil => intro idx i r _ hr; simp at hr
  | cons a l ih =>
    intro idx i r hext hr
    obtain ⟨q, hq⟩ := hext a (List.mem_cons_self a l)
    cases i with
    | zero =>
      simp only [List.getElem?_cons_zero, Option.some.injEq] at hr
      subst hr
      simp [dispatchLoop, hq, processRowD]
    | succ n =>
      simp only [List.getElem?_cons_succ] at hr
      have := ih (idx + 1) n r (fun x hx => hext x (List.mem_cons_of_mem a hx)) hr
      simp only [dispatchLoop, hq]
      have harith : idx + 1 + n = idx + (n + 1) := by omega
      simpa [harith] using this

/-- A column absent from the header is absent from every
`csv.DictReader` record. -/
theorem dictGet_not_mem (header cells : List String) (col : String)
    (h : col ∉ header) : dictGet header cells col = none := by
  induction header generalizing cells with
  | nil => rfl
  | cons a t ih =>
    have ha : (a == col) = false := by
      simp only [beq_eq_false_iff_ne]
      intro hc
      exact h (hc ▸ List.mem_cons_self a t)
    simp only [dictGet, ha, if_false]
    exact ih (cells.drop 1) (fun hm => h (List.mem_cons_of_mem a hm))

/-- A header missing the `message` or `phone_number` column makes the
unguarded cell extraction raise `KeyError` on every record built from
it. -/
theorem extractFields_rowOfCells_error (header cells : List String)
    (h : "message" ∉ header ∨ "phone_number" ∉ header) :
    ∃ e, extractFields (rowOfCells header cells) = Except.error e := by
  rcases h with h | h
  · have hm : dictGet header cells "message" = none := dictGet_not_mem _ _ _ h
    cases hsn : dictGet header cells "serial_number" with
    | none =>
      exact ⟨"KeyError: serial_number", by simp [extractFields, rowOfCells, hsn]⟩
    | some sn =>
      exact ⟨"KeyError: message", by simp [extractFields, rowOfCells, hsn, hm]⟩
  · have hp : dictGet header cells "phone_number" = none := dictGet_not_mem _ _ _ h
    cases hsn : dictGet header cells "serial_number" with
    | none =>
      exact ⟨"KeyError: serial_number", by simp [extractFields, rowOfCells, hsn]⟩
    | some sn =>
      cases hm : dictGet header cells "message" with
      | none =>
        exact ⟨"KeyError: message", by simp [extractFields, rowOfCells, hsn, hm]⟩
      | some msg =>
        exact ⟨"KeyError: phone_number", by simp [extractFields, rowOfCells, hsn, hm, hp]⟩

/-! Claim theorems. -/

/-- Claim C1: for every batch whose rows pass the unguarded cell lookups,
any exception raised while building or sending a row's command (the only
exception a send can raise here is a network failure, since building is
pure) is caught at the row boundary by the broad `except Exception`, a
diagnostic line naming the serial number is printed, and the loop
continues: the run never aborts and every row yields an outcome. -/
theorem C1_per_row_exception_isolation (mode : Mode) (user pass : String)
    (net : Nat → HttpResult) (rows : List Row)
    (hext : ∀ x ∈ rows, ∃ q, extractFields x = Except.ok q) :
    (dispatchLoop mode user pass net rows 0).aborted = none ∧
    (dispatchLoop mode user pass net rows 0).outcomes.length = rows.length ∧
    ∀ i r, rows[i]? = some r → net i = HttpResult.netError →
      (dispatchLoop mode user pass net rows 0).outcomes[i]? =
        some ⟨serialOf r, none,
          ["Error " ++ serialOf r ++ " failed to send lost mode command"]⟩ := by
  refine ⟨(dispatchLoop_complete mode user pass net rows 0 hext).1,
          (dispatchLoop_complete mode user pass net rows 0 hext).2, ?_⟩
  intro i r hr hnet
  have hmem : r ∈ rows := by
    have := List.getElem?_eq_some_iff.mp hr
    obtain ⟨hlt, hgot⟩ := this
    exact hgot ▸ List.getElem_mem hlt
  obtain ⟨q, hq⟩ := hext r hmem
  have hget := dispatchLoop_get mode user pass net rows 0 i r hext hr
  rw [hget, Nat.zero_add, hnet]
  have hfst := extractFields_ok_fst r q hq
  simp [processRowD, hq, processRowFields_netError, hfst]

/-- Witness for C1: a one-row enable batch whose POST raises a network
error still completes, with the diagnostic naming the serial number. -/
theorem C1_witness :
    (dispatchLoop Mode.enable "user" "pass" (fun _ => HttpResult.netError)
      [⟨some "SN1", some "Lost", some "5551234567", none⟩] 0).outcomes[0]? =
      some ⟨"SN1", none, ["Error SN1 failed to send lost mode command"]⟩ := by
  have h := C1_per_row_exception_isolation Mode.enable "user" "pass"
    (fun _ => HttpResult.netError)
    [⟨some "SN1", some "Lost", some "5551234567", none⟩]
    (by
      intro x hx
      rw [List.mem_singleton] at hx
      subst hx
      exact ⟨("SN1", "Lost", "5551234567", none), rfl⟩)
  exact h.2.2 0 ⟨some "SN1", some "Lost", some "5551234567", none⟩ rfl rfl

/-- Claim C2 counterexample: the claim says an Enable row with an empty
`message` is recorded as a validation failure and the remote service is
not contacted for it. In the code there is no validation at all: in the
3-row scenario (row 2 has an empty message, every request answered 201)
row 2 is dispatched exactly like its neighbours — its outcome records
HTTP status 201 from a real request, not a validation failure. -/
theorem C2_counterexample :
    dispatchLoop Mode.enable "user" "pass" (fun _ => HttpResult.status 201)
      [⟨some "SN1", some "Lost", some "5551234567", none⟩,
       ⟨some "SN2", some "", some "5551234567", none⟩,
       ⟨some "SN3", some "Lost", some "5551234567", none⟩] 0 =
      { outcomes := [⟨"SN1", some 201, []⟩, ⟨"SN2", some 201, []⟩, ⟨"SN3", some 201, []⟩]
      , aborted := none } := rfl

/-- Claim C2 amended: under Enable the code performs no validation of
`serial_number`, `message` or `phone_number` values. A row whose cells are
present (even when empty strings) is always dispatched to the remote
service, and its outcome carries the serial number and the HTTP status of
the response; every row of the batch is still processed, in order. (When
a required column is absent from the header, the lookup aborts the whole
run instead — see C3.) -/
theorem C2_amended_no_validation (user pass : String) (net : Nat → HttpResult)
    (rows : List Row)
    (hext : ∀ x ∈ rows, ∃ q, extractFields x = Except.ok q) :
    (dispatchLoop Mode.enable user pass net rows 0).outcomes.length = rows.length ∧
    ∀ i r c, rows[i]? = some r → net i = HttpResult.status c →
      ∃ o, (dispatchLoop Mode.enable user pass net rows 0).outcomes[i]? = some o ∧
        o.serial_number = serialOf r ∧ o.status_code = some c := by
  refine ⟨(dispatchLoop_complete Mode.enable user pass net rows 0 hext).2, ?_⟩
  intro i r c hr hnet
  have hmem : r ∈ rows := by
    have := List.getElem?_eq_some_iff.mp hr
    obtain ⟨hlt, hgot⟩ := this
    exact hgot ▸ List.getElem_mem hlt
  obtain ⟨q, hq⟩ := hext r hmem
  have hget := dispatchLoop_get Mode.enable user pass net rows 0 i r hext hr
  rw [hget, Nat.zero_add, hnet]
  refine ⟨processRowFields Mode.enable user pass q (HttpResult.status c), ?_, ?_, ?_⟩
  · simp [processRowD, hq]
  · rw [(processRowFields_enable_status user pass q c).1]
    exact extractFields_ok_fst r q hq
  · exact (processRowFields_enable_status user pass q c).2

/-- Witness for C2's amended claim: in the 3-row scenario the second row
(empty message) yields an outcome with serial "SN2" and HTTP status 201. -/
theorem C2_witness :
    ∃ o, (dispatchLoop Mode.enable "user" "pass" (fun _ => HttpResult.status 201)
      [⟨some "SN1", some "Lost", some "5551234567", none⟩,
       ⟨some "SN2", some "", some "5551234567", none⟩,
       ⟨some "SN3", some "Lost", some "5551234567", none⟩] 0).outcomes[1]? = some o ∧
      o.serial_number = "SN2" ∧ o.status_code = some 201 := by
  have h := C2_amended_no_validation "user" "pass" (fun _ => HttpResult.status 201)
    [⟨some "SN1", some "Lost", some "5551234567", none⟩,
     ⟨some "SN2", some "", some "5551234567", none⟩,
     ⟨some "SN3", some "Lost", some "5551234567", none⟩]
    (by
      intro x hx
      simp only [List.mem_cons, List.not_mem_nil, or_false] at hx
      rcases hx with rfl | rfl | rfl
      · exact ⟨("SN1", "Lost", "5551234567", none), rfl⟩
      · exact ⟨("SN2", "", "5551234567", none), rfl⟩
      · exact ⟨("SN3", "Lost", "5551234567", none), rfl⟩)
  exact h.2 1 ⟨some "SN2", some "", some "5551234567", none⟩ 201 rfl rfl

/-- Claim C3: in Disable mode the dispatcher still reads each row's
`message` and `phone_number` cells, unguarded. For any input whose header
lacks one of those columns (the column set the spec permits for Disable)
the first record's lookup raises an uncaught `KeyError`: the run aborts
with zero outcomes, so no disable command is sent for that row or any
later one. -/
theorem C3_disable_unguarded_lookup_aborts (user pass : String)
    (net : Nat → HttpResult) (header cells : List String)
    (rest : List (List String))
    (h : "message" ∉ header ∨ "phone_number" ∉ header) :
    ∃ e, main_run Mode.disable user pass net (header :: cells :: rest) =
      RunResult.ran ⟨[], some e⟩ := by
  obtain ⟨e, he⟩ := extractFields_rowOfCells_error header cells h
  refine ⟨e, ?_⟩
  simp [main_run, device_list, dispatchLoop, he]

/-- Witness for C3: a Disable CSV with only a `serial_number` column
aborts at the first row with a `KeyError` and sends nothing. -/
theorem C3_witness :
    ∃ e, main_run Mode.disable "user" "pass" (fun _ => HttpResult.status 201)
      [["serial_number"], ["C02ABC123"]] = RunResult.ran ⟨[], some e⟩ :=
  C3_disable_unguarded_lookup_aborts "user" "pass" (fun _ => HttpResult.status 201)
    ["serial_number"] ["C02ABC123"] [] (Or.inl (by decide))

/-- Claim C4: for every Enable row, the built payload contains the
`lost_mode_with_sound` marker exactly when the `play_sound` cell does not
disable it: marker present when the column is absent (`none`), absent for
the exact strings "false" and "FALSE", present for any other value
(including "no", "0", "False", arbitrary text). -/
theorem C4_sound_marker (sn msg ph : String) (cell : Option String) :
    hasTag (enable_lost_mode_payload sn msg ph (soundParam cell)) "lost_mode_with_sound"
      = !(cell == some "false" || cell == some "FALSE") := by
  have hb : ∀ b : Bool,
      hasTag (enable_lost_mode_payload sn msg ph b) "lost_mode_with_sound" = b := by
    intro b
    cases b <;> rfl
  rw [hb (soundParam cell)]
  rfl

/-- Claim C5: the Enable payload has command `EnableLostMode`, the
message, the phone number, the unconditional `always_enforce_lost_mode` =
"true", the sound marker "true" exactly when `play_sound` is true (and
wholly absent otherwise), and the serial number nested under a device
list of exactly one entry. -/
theorem C5_enable_payload_structure (sn msg ph : String) (b : Bool) :
    findText (enable_lost_mode_payload sn msg ph b) "command" = some (some "EnableLostMode") ∧
    findText (enable_lost_mode_payload sn msg ph b) "lost_mode_message" = some (some msg) ∧
    findText (enable_lost_mode_payload sn msg ph b) "lost_mode_phone" = some (some ph) ∧
    findText (enable_lost_mode_payload sn msg ph b) "always_enforce_lost_mode" =
      some (some "true") ∧
    findText (enable_lost_mode_payload sn msg ph b) "lost_mode_with_sound" =
      (if b then some (some "true") else none) ∧
    deviceEntries (enable_lost_mode_payload sn msg ph b) =
      [XmlNode.elem "mobile_device" none [XmlNode.elem "serial_number" (some sn) []]] := by
  cases b <;> exact ⟨rfl, rfl, rfl, rfl, rfl, rfl⟩

/-- Claim C6: the Disable payload has command `DisableLostMode`, no
message, phone or sound fields anywhere, and the same single-entry device
target carrying the serial number. -/
theorem C6_disable_payload_structure (sn : String) :
    findText (disable_lost_mode_payload sn) "command" = some (some "DisableLostMode") ∧
    hasTag (disable_lost_mode_payload sn) "lost_mode_message" = false ∧
    hasTag (disable_lost_mode_payload sn) "lost_mode_phone" = false ∧
    hasTag (disable_lost_mode_payload sn) "lost_mode_with_sound" = false ∧
    deviceEntries (disable_lost_mode_payload sn) =
      [XmlNode.elem "mobile_device" none [XmlNode.elem "serial_number" (some sn) []]] :=
  ⟨rfl, rfl, rfl, rfl, rfl⟩

/-- Claim C7: a CSV with zero data rows (empty file or header row only,
i.e. at most one raw row) makes the run report the terminal no-items
condition: the result is `noDevices` for every network oracle, so zero
HTTP requests are issued, and the outcome is the whole-run condition
`noDevices`, distinct from any `ran` result with per-row failures. -/
theorem C7_empty_input_terminal (mode : Mode) (user pass : String)
    (net : Nat → HttpResult) (csvRows : List (List String))
    (h : csvRows.length ≤ 1) :
    main_run mode user pass net csvRows = RunResult.noDevices := by
  cases csvRows with
  | nil => rfl
  | cons a t =>
    cases t with
    | nil => rfl
    | cons b t2 => simp at h

/-- Witness for C7: a header-only file yields `noDevices`. -/
theorem C7_witness :
    ([["serial_number"]] : List (List String)).length ≤ 1 ∧
    main_run Mode.enable "user" "pass" (fun _ => HttpResult.netError)
      [["serial_number"]] = RunResult.noDevices :=
  ⟨by decide,
   C7_empty_input_terminal Mode.enable "user" "pass" (fun _ => HttpResult.netError)
     [["serial_number"]] (by decide)⟩

/-- Claim C8 counterexample: the claim says every non-2xx status is
treated as a request failure, with the error surfaced together with the
payload. Status 304 is not 2xx, yet `raise_for_status` does not raise for
it, so the client prints nothing at all: nothing is surfaced and the call
looks exactly like a success that returns 304. -/
theorem C8_counterexample :
    enable_lost_mode "user" "pass" "C02ABC123" "Lost" "5551234567" true
      (HttpResult.status 304) =
      Except.ok { status_code := 304, printed := [] } := rfl

/-- Claim C8 amended: a status in 400-599 (client or server error) is
treated as a request failure: the error and the exact payload that was
sent are printed, the batch is not halted, and the status code is still
returned. Every other status — 2xx but also 1xx and 3xx — is passed
through silently with the status code returned. This holds for both the
enable and the disable client. -/
theorem C8_amended_status_ranges (user pass sn msg ph : String) (b : Bool) (code : Nat) :
    enable_lost_mode user pass sn msg ph b (HttpResult.status code) =
      Except.ok { status_code := code,
                  printed := (if 400 ≤ code ∧ code < 600 then
                    [httpErrorLine code,
                     serializeXml (enable_lost_mode_payload sn msg ph b)] else []) } ∧
    disable_lost_mode user pass sn (HttpResult.status code) =
      Except.ok { status_code := code,
                  printed := (if 400 ≤ code ∧ code < 600 then
                    [httpErrorLine code,
                     serializeXml (disable_lost_mode_payload sn)] else []) } := by
  by_cases h : 400 ≤ code ∧ code < 600
  · have hb : raise_for_status_raises code = true := by
      simp only [raise_for_status_raises, Bool.and_eq_true, decide_eq_true_eq]
      exact h
    constructor <;> simp [enable_lost_mode, disable_lost_mode, hb, h]
  · have hb : raise_for_status_raises code = false := by
      simp only [raise_for_status_raises, Bool.and_eq_false_iff, decide_eq_false_iff_not]
      omega
    constructor <;> simp [enable_lost_mode, disable_lost_mode, hb, h]

/-- Claim C9: the Command Builder is deterministic: for a fixed
DeviceCommandRequest, two invocations produce identical payloads. The
builders are pure functions of the request, with field order and nesting
fixed by the operation variant. -/
theorem C9_builder_deterministic (r₁ r₂ : DeviceCommandRequest) (h : r₁ = r₂) :
    buildPayload r₁ = buildPayload r₂ := by rw [h]

/-- Witness for C9: two invocations on a concrete Enable request agree. -/
theorem C9_witness :
    buildPayload ⟨Mode.enable, "C02ABC123", "Lost", "5551234567", true⟩ =
      buildPayload ⟨Mode.enable, "C02ABC123", "Lost", "5551234567", true⟩ :=
  C9_builder_deterministic
    ⟨Mode.enable, "C02ABC123", "Lost", "5551234567", true⟩
    ⟨Mode.enable, "C02ABC123", "Lost", "5551234567", true⟩ rfl

/-- Claim C10: for every batch whose rows pass the cell lookups, rows are
processed strictly sequentially in input order: the run completes with one
outcome per row, and the outcome at position `i` is exactly the dispatch
of the row at position `i` with the `i`-th network response — so the
outcome sequence preserves the input row order. -/
theorem C10_order_preserved (mode : Mode) (user pass : String)
    (net : Nat → HttpResult) (rows : List Row)
    (hext : ∀ x ∈ rows, ∃ q, extractFields x = Except.ok q) :
    (dispatchLoop mode user pass net rows 0).aborted = none ∧
    (dispatchLoop mode user pass net rows 0).outcomes.length = rows.length ∧
    ∀ i r, rows[i]? = some r →
      (dispatchLoop mode user pass net rows 0).outcomes[i]? =
        some (processRowD mode user pass r (net i)) := by
  refine ⟨(dispatchLoop_complete mode user pass net rows 0 hext).1,
          (dispatchLoop_complete mode user pass net rows 0 hext).2, ?_⟩
  intro i r hr
  have := dispatchLoop_get mode user pass net rows 0 i r hext hr
  rwa [Nat.zero_add] at this

/-- Witness for C10: a one-row disable batch's outcome at position 0 is
the dispatch of that row with the 0-th network response. -/
theorem C10_witness :
    (dispatchLoop Mode.disable "user" "pass" (fun _ => HttpResult.status 200)
      [⟨some "SN1", some "Lost", some "5551234567", none⟩] 0).outcomes[0]? =
      some (processRowD Mode.disable "user" "pass"
        ⟨some "SN1", some "Lost", some "5551234567", none⟩ (HttpResult.status 200)) := by
  have h := C10_order_preserved Mode.disable "user" "pass"
    (fun _ => HttpResult.status 200)
    [⟨some "SN1", some "Lost", some "5551234567", none⟩]
    (by
      intro x hx
      rw [List.mem_singleton] at hx
      subst hx
      exact ⟨("SN1", "Lost", "5551234567", none), rfl⟩)
  exact h.2.2 0 ⟨some "SN1", some "Lost", some "5551234567", none⟩ rfl

end SetLostMode
